import Mathlib

/-!
Verification development for the `steam-next-auth` repository.

The TypeScript source (`src/SteamNextAuth.ts`, `src/constants/steam.ts`,
`src/types/index.d.ts`) is shallowly embedded below.  JavaScript strings are
modelled as Lean `String`; `URLSearchParams` is modelled as an ordered list of
key-value pairs (`Params`), with `get` returning the first value of a key and
`set` following the WHATWG semantics (replace the first pair, drop the rest,
else append).  `fetch` is modelled by an explicit `Transport` function whose
result is either a rejection (network error) or a response with an `ok` flag
and a plaintext body.  The two JavaScript regular expressions of the source
(`/is_valid\s*:\s*true/i` and the anchored identifier pattern) are translated
into executable character-list scanners.
-/

/-! ## Constants from `src/constants/steam.ts` -/

/-- Source: `PROVIDER_ID = "steam"`. -/
def PROVIDER_ID : String := "steam"

/-- Source: `PROVIDER_NAME = "Steam"`. -/
def PROVIDER_NAME : String := "Steam"

/-- Source: `EMAIL_DOMAIN = "steamcommunity.com"`. -/
def EMAIL_DOMAIN : String := "steamcommunity.com"

/-- Source: `AUTHORIZATION_URL = "https://steamcommunity.com/openid/login"`. -/
def AUTHORIZATION_URL : String := "https://steamcommunity.com/openid/login"

/-! ## OpenID parameter keys appearing literally in `SteamNextAuth.ts` -/

/-- The literal key `openid.mode`. -/
def KEY_mode : String := "openid.mode"

/-- The literal key `openid.ns`. -/
def KEY_ns : String := "openid.ns"

/-- The literal key `openid.op_endpoint`. -/
def KEY_op_endpoint : String := "openid.op_endpoint"

/-- The literal key `openid.claimed_id`. -/
def KEY_claimed_id : String := "openid.claimed_id"

/-- The literal key `openid.identity`. -/
def KEY_identity : String := "openid.identity"

/-- The literal key `openid.return_to`. -/
def KEY_return_to : String := "openid.return_to"

/-- The literal key `openid.realm`. -/
def KEY_realm : String := "openid.realm"

/-- The literal value `check_authentication` (line 136 of the source). -/
def CHECK_AUTH : String := "check_authentication"

/-- The literal value `checkid_setup` (line 32 of the source). -/
def CHECKID_SETUP : String := "checkid_setup"

/-- Source line 106: `OPENID_CHECK.ns`. -/
def OPENID_CHECK_ns : String := "http://specs.openid.net/auth/2.0"

/-- Source line 107: `OPENID_CHECK.claimed_id`. -/
def OPENID_CHECK_claimed_id : String := "https://steamcommunity.com/openid/id/"

/-- Source line 108: `OPENID_CHECK.identity`. -/
def OPENID_CHECK_identity : String := "https://steamcommunity.com/openid/id/"

/-- Source lines 34-35: the OpenID `identifier_select` sentinel URI. -/
def IDENTIFIER_SELECT : String := "http://specs.openid.net/auth/2.0/identifier_select"

/-- The empty string (the JavaScript empty-string literal). -/
def EMPTY_STR : String := ""

/-- Error thrown by `token.conform` when `verifyAssertion` yields null (line 50). -/
def UNAUTH_MSG : String := "Unauthenticated"

/-- Error thrown by `SteamProvider` when the API key is missing (line 11). -/
def API_KEY_ERROR : String := "You have forgot to set your Steam API Key in the `clientSecret` option. Please visit https://steamcommunity.com/dev/apikey to get one."

/-- Error raised by the platform URL constructor on an unparsable URL. -/
def URL_ERROR : String := "Invalid URL"

/-- Error thrown by `userinfo.request` when no player record is present (line 75),
after wrapping by the surrounding catch (line 79). -/
def PROFILE_NOT_FOUND : String := "Failed to fetch Steam user info: Steam profile not found"

/-! ## URLSearchParams model -/

/-- An ordered multiset of query parameters, as produced by
`new URLSearchParams(url.search)` (source line 112): the inbound query string
may carry a key more than once, each occurrence is kept in order. -/
abbrev Params := List (String × String)

/-- JavaScript `params.get(k)`: the value of the first pair whose key is `k`,
or null (here `none`) when the key is absent. -/
def getParam (ps : Params) (k : String) : Option String :=
  (ps.find? (fun p => p.1 == k)).map (fun p => p.2)

/-- Source line 117: `params.get` of the claimed-id key, with null and
the empty string both collapsing to the empty string via `||`. -/
def claimedOf (ps : Params) : String :=
  (getParam ps KEY_claimed_id).getD EMPTY_STR

/-- Source line 118: the same collapse for the identity key. -/
def identityOf (ps : Params) : String :=
  (getParam ps KEY_identity).getD EMPTY_STR

/-- WHATWG `URLSearchParams.set(k, v)` (source lines 134 and 136): replace the
value of the first pair whose key is `k` and remove every later pair with that
key; if no pair has key `k`, append `(k, v)` at the end. -/
def setParam : Params → String → String → Params
  | [], k, v => [(k, v)]
  | (k₁, v₁) :: rest, k, v =>
    if k₁ == k then (k, v) :: rest.filter (fun p => p.1 != k)
    else (k₁, v₁) :: setParam rest k v

/-- Source lines 131-136: copy every inbound pair except the `openid.mode` key
into a fresh `URLSearchParams` via `set`, then `set` the mode to
`check_authentication`.  This is the body of the re-verification POST. -/
def buildVerifyParams (ps : Params) : Params :=
  setParam
    (ps.foldl (fun acc p => if p.1 == KEY_mode then acc else setParam acc p.1 p.2) [])
    KEY_mode CHECK_AUTH

/-! ## Character-list helpers modelling the JavaScript string operations -/

/-- Drop an exact literal from the front of a character list; `none` when the
list does not start with the literal.  Models anchored literal matching. -/
def dropLit : List Char → List Char → Option (List Char)
  | [], cs => some cs
  | _ :: _, [] => none
  | p :: ps, c :: cs => if c == p then dropLit ps cs else none

/-- Case-insensitive variant of `dropLit`: the pattern is given in lower case
and each input character is lowered before comparison.  Models the `i` flag of
the JavaScript regular expressions (ASCII folding). -/
def dropLitCI : List Char → List Char → Option (List Char)
  | [], cs => some cs
  | _ :: _, [] => none
  | p :: ps, c :: cs => if c.toLower == p then dropLitCI ps cs else none

/-- JavaScript `s.startsWith(head)` (source lines 119 and 122). -/
def jsStartsWith (s head : String) : Bool :=
  (dropLit head.data s.data).isSome

/-- Does the string `s` end with the literal `tail`? (Used to state spec
properties about the derived return-to URL.) -/
def strEnds (s tail : String) : Bool :=
  (dropLit tail.data.reverse s.data.reverse).isSome

/-! ## The `is_valid` regular expression of source line 147 -/

/-- The characters treated as `\s` by the JavaScript regex engine, restricted
to the ASCII range (space, tab, line feed, vertical tab, form feed, carriage
return). -/
def isSpaceChar (c : Char) : Bool :=
  c == ' ' || c == '\t' || c == '\n' || c == '\x0b' || c == '\x0c' || c == '\r'

/-- The pattern characters of `is_valid`. -/
def IS_VALID_CHARS : List Char := "is_valid".data

/-- The pattern characters of `true`. -/
def TRUE_CHARS : List Char := "true".data

/-- Does `/is_valid\s*:\s*true/i` match at the very start of `cs`?  The match
is deterministic: both `\s*` repetitions are followed by a character that is
not itself a space, so greedy matching needs no backtracking. -/
def isValidAt (cs : List Char) : Bool :=
  match dropLitCI IS_VALID_CHARS cs with
  | none => false
  | some r1 =>
    match r1.dropWhile isSpaceChar with
    | c :: r2 => c == ':' && (dropLitCI TRUE_CHARS (r2.dropWhile isSpaceChar)).isSome
    | [] => false

/-- Unanchored search: does the pattern match at some position of `cs`? -/
def isValidSearch : List Char → Bool
  | [] => false
  | c :: cs => isValidAt (c :: cs) || isValidSearch cs

/-- Source line 147: `/is_valid\s*:\s*true/i.test(text)`. -/
def testIsValid (text : String) : Bool :=
  isValidSearch text.data

/-! ## The identifier pattern of source line 104 -/

/-- The fixed prefix of the identifier pattern with the `https` scheme. -/
def HTTPS_ID_HEAD : String := "https://steamcommunity.com/openid/id/"

/-- The fixed prefix of the identifier pattern with the `http` scheme. -/
def HTTP_ID_HEAD : String := "http://steamcommunity.com/openid/id/"

/-- The anchored pattern `^https?:\/\/steamcommunity\.com\/openid\/id\/(\d+)$`
on character lists, returning the captured digit group.  The two scheme
alternatives are mutually exclusive (they differ at their fifth character), so
trying `https` first is equivalent to the regex alternation. -/
def matchIdentCore (cs : List Char) : Option (List Char) :=
  match dropLit HTTPS_ID_HEAD.data cs with
  | some ds => if ds.isEmpty then none else if ds.all Char.isDigit then some ds else none
  | none =>
    match dropLit HTTP_ID_HEAD.data cs with
    | some ds => if ds.isEmpty then none else if ds.all Char.isDigit then some ds else none
    | none => none

/-- Source lines 150-152: `claimed.match(IDENTIFIER_PATTERN)` followed by
`match[1]` — the captured digit string, or null when the pattern fails. -/
def matchIdentifier (s : String) : Option String :=
  match matchIdentCore s.data with
  | some ds => some (String.mk ds)
  | none => none

/-! ## Transport model and `verifyAssertion` (source lines 98-153) -/

/-- The outcome of a `fetch` call: a rejected promise (network failure) or a
settled response carrying the `ok` flag and the text body. -/
inductive FetchResult where
  | reject (msg : String)
  | response (ok : Bool) (text : String)
deriving Repr

/-- A stubbed transport: the response is a function of the request body
parameters.  `verifyAssertion` performs its single POST through this. -/
abbrev Transport := Params → FetchResult

/-- The five structural checks of source lines 114-128, in source order with
short-circuiting `&&` mirroring the cascade of early `return null`s:
endpoint equality, namespace equality, the two identity-URL head checks, and
return-to equality. -/
def structuralOk (ps : Params) (returnTo : String) : Bool :=
  (getParam ps KEY_op_endpoint == some AUTHORIZATION_URL)
    && (getParam ps KEY_ns == some OPENID_CHECK_ns)
    && jsStartsWith (claimedOf ps) OPENID_CHECK_claimed_id
    && jsStartsWith (identityOf ps) OPENID_CHECK_identity
    && (getParam ps KEY_return_to == some returnTo)

/-- Source lines 138-152: the part of `verifyAssertion` after the structural
checks.  `!resp.ok` yields null; a body failing the `is_valid` regex yields
null; otherwise the identifier is re-extracted from the claimed identifier. -/
def afterChecks (claimed : String) (r : FetchResult) : Except String (Option String) :=
  match r with
  | FetchResult.reject msg => Except.error msg
  | FetchResult.response ok text =>
    if !ok then Except.ok none
    else if !(testIsValid text) then Except.ok none
    else
      match matchIdentifier claimed with
      | none => Except.ok none
      | some m => Except.ok (some m)

/-- Source lines 98-153: `verifyAssertion(req, realm, returnTo)`.  The inbound
query parameters stand for `new URLSearchParams(url.search)`.  A failed
structural check returns null before the transport is ever consulted; a
rejected fetch propagates as a thrown error (`Except.error`); `realm` is
accepted but never read, exactly as in the source. -/
def verifyAssertion (ps : Params) (realm returnTo : String) (t : Transport) :
    Except String (Option String) :=
  if structuralOk ps returnTo then
    afterChecks (claimedOf ps) (t (buildVerifyParams ps))
  else
    Except.ok none

/-- Source lines 42-58: `token.conform`.  A null identifier becomes the thrown
`Unauthenticated` error; a thrown transport error propagates unchanged; on
success the verified identifier (the `steamId` field of the token response) is
returned.  The random `access_token` plays no role in any claim and is not
modelled. -/
def conform (ps : Params) (realm returnTo : String) (t : Transport) :
    Except String String :=
  match verifyAssertion ps realm returnTo t with
  | Except.error e => Except.error e
  | Except.ok none => Except.error UNAUTH_MSG
  | Except.ok (some id) => Except.ok id

/-! ## Steam profile model (`src/types/index.d.ts`, `profile` of `SteamNextAuth.ts`) -/

/-- The `SteamProfile` interface from `src/types/index.d.ts`: the raw player
summary record returned by the Steam lookup API. -/
structure SteamProfile where
  steamid : String
  communityvisibilitystate : Nat
  profilestate : Nat
  personaname : String
  profileurl : String
  avatar : String
  avatarmedium : String
  avatarfull : String
  avatarhash : String
  lastlogoff : Nat
  personastate : Nat
  primaryclanid : String
  timecreated : Nat
  personastateflags : Nat
  commentpermission : Bool
deriving Repr, DecidableEq

/-- The record returned by the `profile` callback (source lines 85-90). -/
structure NormalizedProfile where
  id : String
  image : String
  email : String
  name : String
deriving Repr, DecidableEq

/-- Source lines 83-91: the `profile` mapping.  Every field is taken from the
raw record: `id` and the synthesized email both come from `profile.steamid`. -/
def profileMap (profile : SteamProfile) : NormalizedProfile :=
  { id := profile.steamid
    image := profile.avatarfull
    email := profile.steamid ++ "@" ++ EMAIL_DOMAIN
    name := profile.personaname }

/-- The outcome of the profile-lookup transport (source lines 69-77):
a non-success HTTP status, or a JSON body.  `ok none` models a body whose
`data?.response?.players` chain is absent (malformed envelope); `ok (some l)`
models a well-formed envelope with record list `l`. -/
inductive LookupResp where
  | fail (status : Nat) (statusText : String)
  | ok (players : Option (List SteamProfile))
deriving Repr

/-- Source lines 63-81: `userinfo.request`.  A non-success status or a missing
first record throws; the catch on line 78 prepends its fixed wrapper text.
Otherwise the first record of the list is returned. -/
def userinfoRequest (resp : LookupResp) : Except String SteamProfile :=
  match resp with
  | LookupResp.fail status statusText =>
    Except.error ("Failed to fetch Steam user info: Steam API error: "
      ++ toString status ++ " " ++ statusText)
  | LookupResp.ok none => Except.error PROFILE_NOT_FOUND
  | LookupResp.ok (some []) => Except.error PROFILE_NOT_FOUND
  | LookupResp.ok (some (p :: _)) => Except.ok p

/-- The composition the framework performs: fetch the raw record via
`userinfo.request`, then apply the `profile` mapping. -/
def resolveProfile (resp : LookupResp) : Except String NormalizedProfile :=
  (userinfoRequest resp).map profileMap

/-! ## Platform URL model and `SteamProvider` (source lines 6-39) -/

/-- A parsed absolute URL, modelling the platform `URL` object.  The parser
below performs the WHATWG normalizations observable on its domain: the host is
lowercased, a default port (`443` for `https`, `80` for `http`) is elided, a
non-default port is kept in the `host` field, and an empty path serializes as
`/` — so `href` is the normalized serialization, which differs from the input
for non-canonical inputs such as an uppercase host or an explicit default
port. -/
structure JsURL where
  scheme : String
  host : String
  pathRest : String
deriving Repr, DecidableEq

/-- The `origin` accessor of the platform URL object: scheme and host. -/
def JsURL.origin (u : JsURL) : String :=
  u.scheme ++ "://" ++ u.host

/-- The `href` accessor of the platform URL object: the full serialized URL. -/
def JsURL.href (u : JsURL) : String :=
  u.origin ++ u.pathRest

/-- Characters permitted in the hostname: ASCII letters of either case
(lowercased during parsing), digits, dots and hyphens.  Hosts outside this
set (userinfo, IP-literal brackets, non-ASCII labels) are outside the model
and rejected. -/
def hostnameChar (c : Char) : Bool :=
  c.isAlpha || c.isDigit || c == '.' || c == '-'

/-- Characters the WHATWG serializer keeps verbatim in a path.  Characters it
would percent-encode (and `%` itself, and the query and fragment delimiters)
are outside the model and rejected. -/
def pathChar (c : Char) : Bool :=
  c.isAlpha || c.isDigit || c == '/' || c == '-' || c == '_' || c == '~'
    || c == '!' || c == '$' || c == '&' || c == '(' || c == ')' || c == '*'
    || c == '+' || c == ',' || c == ';' || c == '=' || c == ':' || c == '@'
    || c == '.'

/-- Does the path contain a segment starting with a dot (the WHATWG parser
would resolve `.` and `..` segments)?  Such paths are outside the model and
rejected; this conservatively also rejects ordinary dot-initial segments. -/
def hasDotSeg : List Char → Bool
  | '/' :: '.' :: _ => true
  | _ :: cs => hasDotSeg cs
  | [] => false

/-- The number denoted by a digit string. -/
def natOfDigits (cs : List Char) : Nat :=
  cs.foldl (fun n c => 10 * n + (c.toNat - 48)) 0

/-- Is this port string the default port of the scheme? -/
def isDefaultPort (scheme : String) (pd : List Char) : Bool :=
  (scheme == "https" && pd == ['4', '4', '3'])
    || (scheme == "http" && pd == ['8', '0'])

/-- Normalize the path component: the empty path serializes as `/`, a path
must start with `/`, stay within the verbatim character set and contain no
dot segments. -/
def normPath (rest : List Char) : Option (List Char) :=
  match rest with
  | [] => some ['/']
  | '/' :: _ =>
    if rest.all pathChar && !(hasDotSeg rest) then some rest else none
  | _ :: _ => none

/-- Split `scheme-stripped` characters into host, optional port and path, and
normalize: the hostname is lowercased; a port must be digits without leading
zero and at most `65535`; the default port of the scheme is elided, any other
port is kept after the host. -/
def parseHostRest (scheme : String) (cs : List Char) : Option JsURL :=
  let hostPort := cs.takeWhile (fun c => c != '/')
  let rest := cs.dropWhile (fun c => c != '/')
  let hostname := hostPort.takeWhile (fun c => c != ':')
  let portPart := hostPort.dropWhile (fun c => c != ':')
  if hostname.isEmpty || !(hostname.all hostnameChar) then none
  else
    match normPath rest with
    | none => none
    | some path =>
      match portPart with
      | [] =>
        some { scheme := scheme, host := String.mk (hostname.map Char.toLower),
               pathRest := String.mk path }
      | ':' :: pd =>
        match pd with
        | [] => none
        | p0 :: ptail =>
          if !((p0 :: ptail).all Char.isDigit) then none
          else if p0 == '0' && !ptail.isEmpty then none
          else if 65535 < natOfDigits (p0 :: ptail) then none
          else if isDefaultPort scheme (p0 :: ptail) then
            some { scheme := scheme, host := String.mk (hostname.map Char.toLower),
                   pathRest := String.mk path }
          else
            some { scheme := scheme,
                   host := String.mk (hostname.map Char.toLower ++ ':' :: p0 :: ptail),
                   pathRest := String.mk path }
      | _ :: _ => none

/-- The platform `new URL(s)` constructor (source line 13) on its modelled
domain: absolute `http(s)` URLs with a lower-case scheme, an ASCII host with
optional decimal port, and a query- and fragment-free path of verbatim
characters.  Inputs outside this domain (uppercase scheme, userinfo, IDN
hosts, percent-encoding, dot segments, query or fragment) are rejected rather
than normalized. -/
def parseURL (s : String) : Option JsURL :=
  match dropLit ("https://").data s.data with
  | some cs => parseHostRest ("https") cs
  | none =>
    match dropLit ("http://").data s.data with
    | some cs => parseHostRest ("http") cs
    | none => none

/-- The options record of `src/types/index.d.ts` (`SteamProviderOptions`).
A missing `clientSecret` is modelled as the empty string (both are falsy and
take the same branch in the source). -/
structure SteamProviderOptions where
  callbackUrl : String
  clientSecret : String
deriving Repr, DecidableEq

/-- The parts of the returned `OAuthConfig` object that the claims speak
about: identity of the provider, the secret, the derived realm and return-to
URL, and the authorization redirect parameters (source lines 17-39). -/
structure ProviderConfig where
  clientId : String
  clientSecret : String
  realm : String
  returnTo : String
  authorizationParams : Params
deriving Repr, DecidableEq

/-- Source lines 6-39: the provider factory.  `!options.clientSecret ||
options.clientSecret.length < 1` collapses to a length test (the empty string
is the only falsy string).  Construction is pure: no transport is involved,
so no network call can occur.  An unparsable callback URL makes the platform
`new URL` throw. -/
def SteamProvider (options : SteamProviderOptions) : Except String ProviderConfig :=
  if options.clientSecret.length < 1 then Except.error API_KEY_ERROR
  else
    match parseURL options.callbackUrl with
    | none => Except.error URL_ERROR
    | some callbackUrl =>
      Except.ok
        { clientId := PROVIDER_ID
          clientSecret := options.clientSecret
          realm := callbackUrl.origin
          returnTo := callbackUrl.href ++ "/" ++ PROVIDER_ID
          authorizationParams :=
            [(KEY_mode, CHECKID_SETUP),
             (KEY_ns, OPENID_CHECK_ns),
             (KEY_identity, IDENTIFIER_SELECT),
             (KEY_claimed_id, IDENTIFIER_SELECT),
             (KEY_return_to, callbackUrl.href ++ "/" ++ PROVIDER_ID),
             (KEY_realm, callbackUrl.origin)] }

/-- The derived return-to URL of a construction result, when it succeeded. -/
def returnToOf (r : Except String ProviderConfig) : Option String :=
  match r with
  | Except.ok cfg => some cfg.returnTo
  | Except.error _ => none

/-! ## Spec-side definitions

These definitions follow the wording of the specification (not the source);
they exist to be compared against the source-derived definitions above. -/

/-- Split a character list at every line feed. -/
def splitLines : List Char → List (List Char)
  | [] => [[]]
  | '\n' :: cs => [] :: splitLines cs
  | c :: cs =>
    match splitLines cs with
    | l :: ls => (c :: l) :: ls
    | [] => [[c]]

/-- Does a single `key:value` line have key `is_valid` (case-insensitively)
and value `true` (case-insensitively)?  The key is everything before the
first colon. -/
def lineIsValidTrue (l : List Char) : Bool :=
  match (l.dropWhile (fun c => c != ':')) with
  | ':' :: v =>
    ((l.takeWhile (fun c => c != ':')).map Char.toLower == IS_VALID_CHARS)
      && (v.map Char.toLower == TRUE_CHARS)
  | _ => false

/-- The reading the specification gives of the re-verification response: parse the
body as newline-delimited `key:value` text and look for a line whose key is
`is_valid` (case-insensitive) with value `true`. -/
def specLineValid (text : String) : Bool :=
  (splitLines text.data).any lineIsValidTrue

/-- An anchored occurrence of the `is_valid` regex at the start of a character
list, stated declaratively: the pattern literal (case-insensitively), optional
whitespace, a colon, optional whitespace, the value literal, then anything. -/
def AtOccurrence (cs : List Char) : Prop :=
  ∃ iv w1 w2 tr rest,
    cs = iv ++ (w1 ++ ':' :: (w2 ++ (tr ++ rest)))
      ∧ iv.map Char.toLower = IS_VALID_CHARS
      ∧ w1.all isSpaceChar = true
      ∧ w2.all isSpaceChar = true
      ∧ tr.map Char.toLower = TRUE_CHARS

/-- An occurrence of the `is_valid` regex anywhere in a character list. -/
def RegexOccurs (cs : List Char) : Prop :=
  ∃ pre rest, cs = pre ++ rest ∧ AtOccurrence rest

/-- The identifier pattern of the specification, stated declaratively: the string
is the fixed identity-URL head (with either scheme) followed by a non-empty
string of decimal digits, and `d` is exactly that digit string. -/
def identSpecMatch (s d : String) : Prop :=
  (s = HTTPS_ID_HEAD ++ d ∨ s = HTTP_ID_HEAD ++ d)
    ∧ d ≠ EMPTY_STR ∧ d.data.all Char.isDigit = true

/-- Removal of every `openid.realm` parameter: two parameter sets with the
same image under this map differ only in that parameter. -/
def dropRealm (ps : Params) : Params :=
  ps.filter (fun p => p.1 != KEY_realm)

/-- First-defined alternative on options (used to state how later `set`
calls override earlier values). -/
def orElseO {α : Type} (a b : Option α) : Option α :=
  match a with
  | some v => some v
  | none => b

/-! ## Concrete fixtures used by witnesses and counterexamples -/

/-- A configured realm. -/
def REALM0 : String := "https://example.com"

/-- A second, different realm value. -/
def REALM1 : String := "https://other.example"

/-- The return-to URL derived for the fixture configuration. -/
def RT0 : String := "https://example.com/api/auth/callback/steam"

/-- The example Steam identifier of the specification. -/
def STEAMID0 : String := "76561197960287930"

/-- The example claimed identifier of the specification. -/
def CLAIMED0 : String := "https://steamcommunity.com/openid/id/76561197960287930"

/-- The assertion mode the provider sends on the callback. -/
def ID_RES : String := "id_res"

/-- A provider endpoint different from the fixed one. -/
def EVIL_ENDPOINT : String := "https://evil.example/openid/login"

/-- A re-verification body the provider answers on success. -/
def BODY_VALID : String := "ns:http://specs.openid.net/auth/2.0\nis_valid:true\n"

/-- A re-verification body in which `is_valid` and `true` occur only embedded
inside a larger token of a line (`ais_valid:trueck`). -/
def BODY_EMBED : String := "ns:x\nais_valid:trueck"

/-- A network failure message. -/
def NET_MSG : String := "network error"

/-- A callback parameter set passing all five structural checks. -/
def goodPs : Params :=
  [(KEY_op_endpoint, AUTHORIZATION_URL), (KEY_ns, OPENID_CHECK_ns),
   (KEY_claimed_id, CLAIMED0), (KEY_identity, CLAIMED0),
   (KEY_return_to, RT0), (KEY_mode, ID_RES), (KEY_realm, REALM0)]

/-- The same parameter set with a different `openid.realm` value. -/
def goodPsAltRealm : Params :=
  [(KEY_op_endpoint, AUTHORIZATION_URL), (KEY_ns, OPENID_CHECK_ns),
   (KEY_claimed_id, CLAIMED0), (KEY_identity, CLAIMED0),
   (KEY_return_to, RT0), (KEY_mode, ID_RES), (KEY_realm, REALM1)]

/-- A parameter set whose `openid.op_endpoint` is not the fixed endpoint. -/
def badPs : Params :=
  [(KEY_op_endpoint, EVIL_ENDPOINT), (KEY_ns, OPENID_CHECK_ns),
   (KEY_claimed_id, CLAIMED0), (KEY_identity, CLAIMED0),
   (KEY_return_to, RT0), (KEY_mode, ID_RES), (KEY_realm, REALM0)]

/-- A fixture key carried twice by the inbound query string. -/
def KA : String := "a"

/-- First value of the duplicated key. -/
def V1 : String := "1"

/-- Second value of the duplicated key. -/
def V2 : String := "2"

/-- A structurally valid parameter set whose query string carries the key
`a` twice, with values `1` and then `2`. -/
def dupPs : Params := goodPs ++ [(KA, V1), (KA, V2)]

/-- A raw profile record whose `steamid` is the verified identifier. -/
def prof1 : SteamProfile :=
  { steamid := STEAMID0
    communityvisibilitystate := 3
    profilestate := 1
    personaname := "Alice"
    profileurl := "https://steamcommunity.com/id/alice"
    avatar := "https://avatars.example/a.jpg"
    avatarmedium := "https://avatars.example/a_medium.jpg"
    avatarfull := "https://avatars.example/a_full.jpg"
    avatarhash := "aaaa"
    lastlogoff := 1700000000
    personastate := 1
    primaryclanid := "103582791429521408"
    timecreated := 1200000000
    personastateflags := 0
    commentpermission := true }

/-- A record agreeing with `prof1` on `steamid` but differing elsewhere. -/
def prof1b : SteamProfile :=
  { steamid := STEAMID0
    communityvisibilitystate := 1
    profilestate := 0
    personaname := "Alias"
    profileurl := "https://steamcommunity.com/id/alias"
    avatar := "https://avatars.example/z.jpg"
    avatarmedium := "https://avatars.example/z_medium.jpg"
    avatarfull := "https://avatars.example/z_full.jpg"
    avatarhash := "zzzz"
    lastlogoff := 1700000009
    personastate := 3
    primaryclanid := "103582791429521500"
    timecreated := 1100000000
    personastateflags := 1
    commentpermission := false }

/-- A second, different raw profile record. -/
def prof2 : SteamProfile :=
  { steamid := "76561197960287931"
    communityvisibilitystate := 1
    profilestate := 1
    personaname := "Bob"
    profileurl := "https://steamcommunity.com/id/bob"
    avatar := "https://avatars.example/b.jpg"
    avatarmedium := "https://avatars.example/b_medium.jpg"
    avatarfull := "https://avatars.example/b_full.jpg"
    avatarhash := "bbbb"
    lastlogoff := 1700000001
    personastate := 0
    primaryclanid := "103582791429521409"
    timecreated := 1300000000
    personastateflags := 0
    commentpermission := false }

/-- A raw profile record whose `steamid` differs from the verified
identifier. -/
def wrongProfile : SteamProfile :=
  { steamid := "999"
    communityvisibilitystate := 3
    profilestate := 1
    personaname := "Mallory"
    profileurl := "https://steamcommunity.com/id/mallory"
    avatar := "https://avatars.example/m.jpg"
    avatarmedium := "https://avatars.example/m_medium.jpg"
    avatarfull := "https://avatars.example/m_full.jpg"
    avatarhash := "mmmm"
    lastlogoff := 1700000002
    personastate := 1
    primaryclanid := "103582791429521410"
    timecreated := 1400000000
    personastateflags := 0
    commentpermission := true }

/-- Well-formed provider options. -/
def OPTS_OK : SteamProviderOptions :=
  { callbackUrl := "https://example.com/api/auth/callback", clientSecret := "k0123456789" }

/-- Provider options with an empty API secret. -/
def OPTS_EMPTY : SteamProviderOptions :=
  { callbackUrl := "https://example.com/api/auth/callback", clientSecret := EMPTY_STR }

/-- The parsed form of the fixture callback URL. -/
def U0 : JsURL :=
  { scheme := "https", host := "example.com", pathRest := "/api/auth/callback" }

/-- Provider options whose callback URL carries an uppercase host letter: a
valid absolute URL that the platform parser normalizes. -/
def OPTS_UPPERHOST : SteamProviderOptions :=
  { callbackUrl := "https://Example.com/api/auth/callback", clientSecret := "k0123456789" }

/-- Provider options whose callback URL carries the explicit default port: a
valid absolute URL that the platform parser normalizes. -/
def OPTS_PORT443 : SteamProviderOptions :=
  { callbackUrl := "https://example.com:443/api/auth/callback", clientSecret := "k0123456789" }

/-- The normalized return-to URL derived from either non-canonical fixture. -/
def RT_NORM : String := "https://example.com/api/auth/callback/steam"

/-! ## Helper lemmas: literal matching -/

/-- Anchored literal matching succeeds exactly on lists that start with the
literal, and returns the remainder. -/
theorem dropLit_eq_some_iff (p : List Char) :
    ∀ cs r : List Char, dropLit p cs = some r ↔ cs = p ++ r := by
  induction p with
  | nil =>
    intro cs r
    simp [dropLit]
  | cons q ps ih =>
    intro cs r
    cases cs with
    | nil =>
      simp only [dropLit]
      constructor
      · intro h; exact Option.noConfusion h
      · intro h; exact absurd h (by simp)
    | cons c cs' =>
      simp only [dropLit, List.cons_append]
      by_cases h : c = q
      · subst h
        simp [ih]
      · rw [if_neg (by simpa using h)]
        constructor
        · intro h'; exact Option.noConfusion h'
        · intro h'
          exact absurd (List.head_eq_of_cons_eq h') h

/-- Dropping a literal from that very literal with a tail succeeds. -/
theorem dropLit_self_append (p r : List Char) : dropLit p (p ++ r) = some r :=
  (dropLit_eq_some_iff p (p ++ r) r).mpr rfl

/-- Case-insensitive anchored matching succeeds exactly on lists whose head
lowers to the pattern. -/
theorem dropLitCI_eq_some_iff (p : List Char) :
    ∀ cs r : List Char, dropLitCI p cs = some r ↔
      ∃ front, cs = front ++ r ∧ front.map Char.toLower = p := by
  induction p with
  | nil =>
    intro cs r
    simp only [dropLitCI, Option.some.injEq]
    constructor
    · rintro rfl
      exact ⟨[], rfl, rfl⟩
    · rintro ⟨front, rfl, h2⟩
      have : front = [] := List.map_eq_nil_iff.mp h2
      subst this
      rfl
  | cons q ps ih =>
    intro cs r
    cases cs with
    | nil =>
      simp only [dropLitCI]
      constructor
      · intro h; exact Option.noConfusion h
      · rintro ⟨front, h1, h2⟩
        cases front with
        | nil => simp at h2
        | cons a f => simp at h1
    | cons c cs' =>
      simp only [dropLitCI]
      by_cases h : c.toLower = q
      · rw [if_pos (by simpa using h)]
        rw [ih]
        constructor
        · rintro ⟨f, rfl, hf⟩
          exact ⟨c :: f, rfl, by simp [hf, h]⟩
        · rintro ⟨front, h1, h2⟩
          cases front with
          | nil => simp at h2
          | cons a f =>
            injection h1 with hca hrest
            simp only [List.map_cons, List.cons.injEq] at h2
            subst hca
            exact ⟨f, hrest, h2.2⟩
      · rw [if_neg (by simpa using h)]
        constructor
        · intro h'; exact Option.noConfusion h'
        · rintro ⟨front, h1, h2⟩
          cases front with
          | nil => simp at h2
          | cons a f =>
            injection h1 with hca hrest
            simp only [List.map_cons, List.cons.injEq] at h2
            exact (h (by rw [hca]; exact h2.1)).elim

/-- Case-insensitive matching of a literal against a lower-matching front. -/
theorem dropLitCI_append (p front r : List Char) (h : front.map Char.toLower = p) :
    dropLitCI p (front ++ r) = some r :=
  (dropLitCI_eq_some_iff p (front ++ r) r).mpr ⟨front, rfl, h⟩

/-! ## Helper lemmas: parameter lookup and update -/

/-- Lookup in the empty parameter list. -/
theorem getParam_nil (k : String) : getParam [] k = none := rfl

/-- Lookup steps over a cons cell. -/
theorem getParam_cons (p : String × String) (ps : Params) (k : String) :
    getParam (p :: ps) k = if p.1 == k then some p.2 else getParam ps k := by
  simp only [getParam, List.find?_cons]
  cases hp : (p.1 == k) <;> simp

/-- First alternative keeps a present value. -/
theorem orElseO_none_right {α : Type} (a : Option α) : orElseO a none = a := by
  cases a <;> rfl

/-- First alternative is associative. -/
theorem orElseO_assoc {α : Type} (a b c : Option α) :
    orElseO (orElseO a b) c = orElseO a (orElseO b c) := by
  cases a <;> rfl

/-- Lookup distributes over append as a first-defined alternative. -/
theorem getParam_append (l₁ l₂ : Params) (k : String) :
    getParam (l₁ ++ l₂) k = orElseO (getParam l₁ k) (getParam l₂ k) := by
  induction l₁ with
  | nil => simp [getParam_nil, orElseO]
  | cons p rest ih =>
    simp only [List.cons_append, getParam_cons, ih]
    cases hp : (p.1 == k) <;> simp [orElseO]

/-- Filtering out one key leaves lookups of other keys unchanged. -/
theorem getParam_filter_ne (ps : Params) (k k' : String) (h : k' ≠ k) :
    getParam (ps.filter (fun p => p.1 != k)) k' = getParam ps k' := by
  induction ps with
  | nil => rfl
  | cons p rest ih =>
    simp only [List.filter_cons]
    by_cases hp : p.1 = k
    · rw [if_neg (by simp [hp])]
      rw [ih, getParam_cons, if_neg (by simp [hp, h.symm])]
    · rw [if_pos (by simp [hp])]
      rw [getParam_cons, getParam_cons, ih]

/-- After `set`, the written key reads back the written value. -/
theorem getParam_setParam_self (ps : Params) (k v : String) :
    getParam (setParam ps k v) k = some v := by
  induction ps with
  | nil => simp [setParam, getParam_cons]
  | cons p rest ih =>
    obtain ⟨k₁, v₁⟩ := p
    simp only [setParam]
    by_cases hp : k₁ = k
    · rw [if_pos (by simpa using hp)]
      simp [getParam_cons]
    · rw [if_neg (by simpa using hp)]
      rw [getParam_cons, if_neg (by simpa using hp), ih]

/-- After `set`, every other key reads back its previous value. -/
theorem getParam_setParam_ne (ps : Params) (k v k' : String) (h : k' ≠ k) :
    getParam (setParam ps k v) k' = getParam ps k' := by
  induction ps with
  | nil =>
    simp only [setParam]
    rw [getParam_cons, if_neg (by simp [h.symm]), getParam_nil]
  | cons p rest ih =>
    obtain ⟨k₁, v₁⟩ := p
    simp only [setParam]
    by_cases hp : k₁ = k
    · rw [if_pos (by simpa using hp)]
      rw [getParam_cons, if_neg (by simp [h.symm]),
        getParam_filter_ne rest k k' h, getParam_cons, if_neg (by simp [hp, h.symm])]
    · rw [if_neg (by simpa using hp)]
      rw [getParam_cons, getParam_cons, ih]

/-- The re-verification body copy loop: looking up any key other than the
mode key in the accumulated copy yields the value of its last inbound
occurrence (the first occurrence in the reversed list), falling back to the
accumulator. -/
theorem foldl_step_getParam (ps : Params) :
    ∀ (acc : Params) (k : String), k ≠ KEY_mode →
      getParam
        (ps.foldl (fun acc p => if p.1 == KEY_mode then acc else setParam acc p.1 p.2) acc) k
        = orElseO (getParam ps.reverse k) (getParam acc k) := by
  induction ps with
  | nil =>
    intro acc k hk
    simp [getParam_nil, orElseO]
  | cons p rest ih =>
    intro acc k hk
    simp only [List.foldl_cons, List.reverse_cons]
    rw [ih _ k hk, getParam_append, orElseO_assoc]
    congr 1
    obtain ⟨k₁, v₁⟩ := p
    by_cases h1 : k₁ = KEY_mode
    · rw [if_pos (by simpa using h1)]
      rw [getParam_cons, if_neg (by simp [h1, hk.symm]), getParam_nil]
      rfl
    · rw [if_neg (by simpa using h1)]
      by_cases h2 : k₁ = k
      · subst h2
        rw [getParam_setParam_self, getParam_cons, if_pos (by simp)]
        rfl
      · rw [getParam_setParam_ne _ _ _ _ (fun he => h2 he.symm),
          getParam_cons, if_neg (by simpa using h2), getParam_nil]
        rfl

/-- Looking up any key other than the mode key in the re-verification body
yields the value of its last inbound occurrence. -/
theorem buildVerifyParams_getParam (ps : Params) (k : String) (hk : k ≠ KEY_mode) :
    getParam (buildVerifyParams ps) k = getParam ps.reverse k := by
  unfold buildVerifyParams
  rw [getParam_setParam_ne _ _ _ _ hk, foldl_step_getParam ps [] k hk,
    getParam_nil, orElseO_none_right]

/-- The re-verification body always carries the overridden mode. -/
theorem buildVerifyParams_mode (ps : Params) :
    getParam (buildVerifyParams ps) KEY_mode = some CHECK_AUTH :=
  getParam_setParam_self _ _ _

/-! ## Helper lemmas: the two phases of `verifyAssertion` -/

/-- A failed structural check short-circuits to null for every transport. -/
theorem verifyAssertion_structural_false (ps : Params) (realm returnTo : String)
    (h : structuralOk ps returnTo = false) (t : Transport) :
    verifyAssertion ps realm returnTo t = Except.ok none := by
  simp [verifyAssertion, h]

/-- A passed structural check hands over to the transport phase. -/
theorem verifyAssertion_structural_true (ps : Params) (realm returnTo : String)
    (h : structuralOk ps returnTo = true) (t : Transport) :
    verifyAssertion ps realm returnTo t
      = afterChecks (claimedOf ps) (t (buildVerifyParams ps)) := by
  simp [verifyAssertion, h]

/-- The transport phase on a successful response: the result is the extracted
identifier exactly when the `is_valid` regex accepts the body. -/
theorem afterChecks_response_true (claimed text : String) :
    afterChecks claimed (FetchResult.response true text)
      = Except.ok (if testIsValid text then matchIdentifier claimed else none) := by
  cases h : testIsValid text
  · simp [afterChecks, h]
  · simp only [afterChecks, h, Bool.not_true, Bool.not_false, Bool.false_eq_true,
      if_false, if_true]
    cases matchIdentifier claimed <;> simp

/-! ## Helper lemmas: the `is_valid` scanner is the declarative regex -/

/-- A character whose lower case is `t` is not a whitespace character. -/
theorem isSpaceChar_false_of_toLower_t (c : Char) (h : c.toLower = 't') :
    isSpaceChar c = false := by
  cases hs : isSpaceChar c
  · rfl
  · exfalso
    simp only [isSpaceChar, Bool.or_eq_true, beq_iff_eq] at hs
    rcases hs with ((((h1 | h1) | h1) | h1) | h1) | h1 <;>
      (subst h1; exact absurd h (by decide))

/-- The anchored scanner accepts exactly the declarative anchored
occurrences. -/
theorem isValidAt_iff (cs : List Char) : isValidAt cs = true ↔ AtOccurrence cs := by
  constructor
  · intro h
    unfold isValidAt at h
    split at h
    · exact absurd h (by decide)
    · rename_i r1 h1
      split at h
      · rename_i c r2 h2
        simp only [Bool.and_eq_true, beq_iff_eq] at h
        obtain ⟨rfl, hsome⟩ := h
        obtain ⟨iv, hcs, hiv⟩ := (dropLitCI_eq_some_iff _ _ _).mp h1
        obtain ⟨post, h3⟩ := Option.isSome_iff_exists.mp hsome
        obtain ⟨tr, htr_eq, htr⟩ := (dropLitCI_eq_some_iff _ _ _).mp h3
        have hr1 : r1 = r1.takeWhile isSpaceChar ++ ':' :: r2 := by
          conv_lhs => rw [← List.takeWhile_append_dropWhile (p := isSpaceChar) (l := r1)]
          rw [h2]
        have hr2 : r2 = r2.takeWhile isSpaceChar ++ (tr ++ post) := by
          conv_lhs => rw [← List.takeWhile_append_dropWhile (p := isSpaceChar) (l := r2)]
          rw [htr_eq]
        refine ⟨iv, r1.takeWhile isSpaceChar, r2.takeWhile isSpaceChar, tr, post, ?_,
          hiv, List.all_takeWhile, List.all_takeWhile, htr⟩
        rw [hcs]
        calc iv ++ r1
            = iv ++ (List.takeWhile isSpaceChar r1 ++ ':' :: r2) := by rw [← hr1]
          _ = iv ++ (List.takeWhile isSpaceChar r1
                ++ ':' :: (List.takeWhile isSpaceChar r2 ++ (tr ++ post))) := by
              rw [← hr2]
      · exact absurd h (by decide)
  · rintro ⟨iv, w1, w2, tr, rest, rfl, hiv, hw1, hw2, htr⟩
    unfold isValidAt
    have hdw1 : (w1 ++ ':' :: (w2 ++ (tr ++ rest))).dropWhile isSpaceChar
        = ':' :: (w2 ++ (tr ++ rest)) := by
      rw [List.dropWhile_append_of_pos (fun a ha => (List.all_eq_true.mp hw1) a ha),
        List.dropWhile_cons, if_neg (by decide)]
    simp only [dropLitCI_append _ _ _ hiv, hdw1]
    simp only [beq_self_eq_true, Bool.true_and]
    cases tr with
    | nil => exact absurd htr (by decide)
    | cons t tr' =>
      have ht : t.toLower = 't' := by
        have hT : TRUE_CHARS = 't' :: "rue".data := by decide
        rw [hT] at htr
        simp only [List.map_cons, List.cons.injEq] at htr
        exact htr.1
      have hdw2 : (w2 ++ ((t :: tr') ++ rest)).dropWhile isSpaceChar
          = (t :: tr') ++ rest := by
        rw [List.dropWhile_append_of_pos (fun a ha => (List.all_eq_true.mp hw2) a ha),
          List.cons_append, List.dropWhile_cons,
          if_neg (by rw [isSpaceChar_false_of_toLower_t t ht]; simp)]
      rw [hdw2, dropLitCI_append _ _ _ htr]
      rfl

/-- A declarative anchored occurrence needs a non-empty list. -/
theorem not_atOccurrence_nil : ¬ AtOccurrence [] := by
  rintro ⟨iv, w1, w2, tr, rest, heq, hiv, -, -, -⟩
  cases iv with
  | nil => exact absurd hiv (by decide)
  | cons a f => simp at heq

/-- The unanchored scanner accepts exactly the lists in which the regex
occurs at some position — in particular, occurrences embedded inside a larger
token are accepted, since no anchoring is required. -/
theorem isValidSearch_iff (cs : List Char) : isValidSearch cs = true ↔ RegexOccurs cs := by
  induction cs with
  | nil =>
    simp only [isValidSearch]
    constructor
    · intro h; exact absurd h (by decide)
    · rintro ⟨pre, rest, heq, hat⟩
      obtain ⟨rfl, rfl⟩ := List.append_eq_nil.mp heq.symm
      exact absurd hat not_atOccurrence_nil
  | cons c cs' ih =>
    simp only [isValidSearch, Bool.or_eq_true, ih, isValidAt_iff]
    constructor
    · rintro (hat | ⟨pre, rest, rfl, hat⟩)
      · exact ⟨[], c :: cs', rfl, hat⟩
      · exact ⟨c :: pre, rest, rfl, hat⟩
    · rintro ⟨pre, rest, heq, hat⟩
      cases pre with
      | nil =>
        left
        have hr : rest = c :: cs' := heq.symm
        exact hr ▸ hat
      | cons a pre' =>
        injection heq with h1 h2
        right
        exact ⟨pre', rest, h2, hat⟩

/-- The source regex test accepts a body exactly when the pattern occurs
somewhere in it. -/
theorem testIsValid_iff (text : String) :
    testIsValid text = true ↔ RegexOccurs text.data :=
  isValidSearch_iff text.data

/-! ## Helper lemmas: strings and the identifier pattern -/

/-- Strings with equal character data are equal. -/
theorem string_eq_of_data_eq (a b : String) (h : a.data = b.data) : a = b := by
  cases a
  cases b
  exact congrArg String.mk h

/-- The character data of an appended string. -/
theorem data_append (a b : String) : (a ++ b).data = a.data ++ b.data := by
  cases a; cases b; rfl

/-- Rebuilding a string from its character data. -/
theorem mk_data (s : String) : String.mk s.data = s := by
  cases s; rfl

/-- A list with a `false` emptiness test under a hypothesis of non-nilness. -/
theorem isEmpty_false_of_ne_nil {α : Type} {l : List α} (h : l ≠ []) :
    l.isEmpty = false := by
  cases l
  · exact absurd rfl h
  · rfl

/-- Anchored literal matching fails when some position inside the literal
disagrees. -/
theorem dropLit_eq_none (p cs : List Char) (i : Nat) (h1 : i < p.length)
    (h2 : cs[i]? ≠ p[i]?) : dropLit p cs = none := by
  cases hd : dropLit p cs with
  | none => rfl
  | some r =>
    exfalso
    have hcs := (dropLit_eq_some_iff _ _ _).mp hd
    subst hcs
    exact h2 (by rw [List.getElem?_append, if_pos h1])

/-- The translated identifier pattern succeeds exactly on the character lists
of the declarative pattern: a scheme head followed by a non-empty digit
string, which is the capture. -/
theorem matchIdentCore_eq_some_iff (cs ds : List Char) :
    matchIdentCore cs = some ds ↔
      ((cs = HTTPS_ID_HEAD.data ++ ds ∨ cs = HTTP_ID_HEAD.data ++ ds)
        ∧ ds ≠ [] ∧ ds.all Char.isDigit = true) := by
  constructor
  · intro h
    unfold matchIdentCore at h
    split at h
    · rename_i es h1
      have hcs := (dropLit_eq_some_iff _ _ _).mp h1
      by_cases he : es.isEmpty
      · rw [if_pos he] at h; exact Option.noConfusion h
      · rw [if_neg he] at h
        by_cases hd : es.all Char.isDigit
        · rw [if_pos hd] at h
          obtain rfl : es = ds := Option.some.inj h
          exact ⟨Or.inl hcs, fun hh => he (hh ▸ rfl), hd⟩
        · rw [if_neg hd] at h; exact Option.noConfusion h
    · rename_i h0
      split at h
      · rename_i es h1
        have hcs := (dropLit_eq_some_iff _ _ _).mp h1
        by_cases he : es.isEmpty
        · rw [if_pos he] at h; exact Option.noConfusion h
        · rw [if_neg he] at h
          by_cases hd : es.all Char.isDigit
          · rw [if_pos hd] at h
            obtain rfl : es = ds := Option.some.inj h
            exact ⟨Or.inr hcs, fun hh => he (hh ▸ rfl), hd⟩
          · rw [if_neg hd] at h; exact Option.noConfusion h
      · exact Option.noConfusion h
  · rintro ⟨hcs | hcs, hne, hdig⟩
    · subst hcs
      unfold matchIdentCore
      simp only [dropLit_self_append]
      rw [if_neg (by rw [isEmpty_false_of_ne_nil hne]; simp), if_pos hdig]
    · subst hcs
      have hnone : dropLit HTTPS_ID_HEAD.data (HTTP_ID_HEAD.data ++ ds) = none := by
        refine dropLit_eq_none _ _ 4 (by decide) ?_
        rw [List.getElem?_append, if_pos (by decide)]
        decide
      unfold matchIdentCore
      simp only [hnone, dropLit_self_append]
      rw [if_neg (by rw [isEmpty_false_of_ne_nil hne]; simp), if_pos hdig]

/-- The source identifier extraction agrees with the declarative
specification pattern. -/
theorem matchIdentifier_eq_some_iff (s d : String) :
    matchIdentifier s = some d ↔ identSpecMatch s d := by
  unfold matchIdentifier
  constructor
  · intro h
    split at h
    · rename_i ds h1
      have hd : d.data = ds := by
        have h2 := Option.some.inj h
        rw [← h2]
      obtain ⟨hor, hne, hdig⟩ := (matchIdentCore_eq_some_iff _ _).mp h1
      refine ⟨?_, ?_, ?_⟩
      · rcases hor with h' | h'
        · exact Or.inl (string_eq_of_data_eq _ _ (by rw [data_append, hd]; exact h'))
        · exact Or.inr (string_eq_of_data_eq _ _ (by rw [data_append, hd]; exact h'))
      · intro hh
        exact hne (by rw [← hd, hh]; rfl)
      · rw [hd]; exact hdig
    · exact Option.noConfusion h
  · rintro ⟨hor, hne, hdig⟩
    have h1 : matchIdentCore s.data = some d.data := by
      refine (matchIdentCore_eq_some_iff _ _).mpr ⟨?_, ?_, hdig⟩
      · rcases hor with h' | h'
        · exact Or.inl (by rw [h', data_append])
        · exact Or.inr (by rw [h', data_append])
      · intro hh
        exact hne (string_eq_of_data_eq _ _ hh)
    simp only [h1, mk_data]

/-- When no digit string satisfies the declarative pattern, the source
extraction yields null. -/
theorem matchIdentifier_eq_none (s : String) (h : ∀ e, ¬ identSpecMatch s e) :
    matchIdentifier s = none := by
  cases hm : matchIdentifier s with
  | none => rfl
  | some d => exact absurd ((matchIdentifier_eq_some_iff s d).mp hm) (h d)

/-! ## Helper lemmas: the URL model and the provider factory -/

/-- A string starting with its own first append component. -/
theorem jsStartsWith_append2 (a b c : String) : jsStartsWith (a ++ b ++ c) a = true := by
  unfold jsStartsWith
  rw [data_append, data_append, List.append_assoc, dropLit_self_append]
  rfl

/-- A string ending with the concatenation of its last two append
components. -/
theorem strEnds_append2 (a b c bc : String) (h : bc.data = b.data ++ c.data) :
    strEnds (a ++ b ++ c) bc = true := by
  unfold strEnds
  rw [data_append, data_append, h, List.reverse_append, List.reverse_append,
    List.reverse_append, ← List.append_assoc, dropLit_self_append]
  rfl

/-! ## Claim theorems -/

/-- C1: for every callback parameter set, assertion verification performs the
re-verification network call only if all five structural checks pass; when
any check fails, the result is null (no identifier) for every transport, and
the outcome is identical under any two transports — so no network call is
observable, not even a rejecting one. -/
theorem C1_structural_fast_reject (ps : Params) (realm returnTo : String)
    (h : structuralOk ps returnTo = false) :
    ∀ t t' : Transport,
      verifyAssertion ps realm returnTo t = Except.ok none
        ∧ verifyAssertion ps realm returnTo t = verifyAssertion ps realm returnTo t' := by
  intro t t'
  exact ⟨verifyAssertion_structural_false ps realm returnTo h t,
    (verifyAssertion_structural_false ps realm returnTo h t).trans
      (verifyAssertion_structural_false ps realm returnTo h t').symm⟩

/-- C1 witness: a parameter set whose `openid.op_endpoint` differs from the
fixed endpoint fails with no identifier, and a rejecting transport is never
reached. -/
theorem C1_structural_fast_reject_witness :
    structuralOk badPs RT0 = false
      ∧ (verifyAssertion badPs REALM0 RT0 (fun _ => FetchResult.reject NET_MSG) = Except.ok none
        ∧ verifyAssertion badPs REALM0 RT0 (fun _ => FetchResult.reject NET_MSG)
          = verifyAssertion badPs REALM0 RT0 (fun _ => FetchResult.response true BODY_VALID)) :=
  ⟨by decide, C1_structural_fast_reject badPs REALM0 RT0 (by decide) _ _⟩

/-- C2 counterexample: the body `ns:x` newline `ais_valid:trueck` has no line
whose key is `is_valid`, yet verification succeeds on it, because the source
tests the unanchored regex `is_valid\s*:\s*true` anywhere in the body. -/
theorem C2_line_claim_counterexample :
    specLineValid BODY_EMBED = false
      ∧ structuralOk goodPs RT0 = true
      ∧ verifyAssertion goodPs REALM0 RT0 (fun _ => FetchResult.response true BODY_EMBED)
        = Except.ok (some STEAMID0) :=
  ⟨by decide, by decide, rfl⟩

/-- C2 amended: for parameter sets passing the structural checks and a
successful transport status, the answer of the provider is treated as valid
exactly when the pattern `is_valid`, optional whitespace, colon, optional
whitespace, `true` occurs case-insensitively anywhere in the body — also
embedded inside a larger token or line; a body with no such occurrence yields
null. -/
theorem C2_amended_regex_anywhere (ps : Params) (realm returnTo body : String)
    (h : structuralOk ps returnTo = true) :
    verifyAssertion ps realm returnTo (fun _ => FetchResult.response true body)
      = Except.ok (if testIsValid body then matchIdentifier (claimedOf ps) else none)
      ∧ (testIsValid body = true ↔ RegexOccurs body.data) := by
  refine ⟨?_, testIsValid_iff body⟩
  rw [verifyAssertion_structural_true ps realm returnTo h, afterChecks_response_true]

/-- C2 amended witness at the fixture parameters and the normal
success body of the provider. -/
theorem C2_amended_regex_anywhere_witness :
    verifyAssertion goodPs REALM0 RT0 (fun _ => FetchResult.response true BODY_VALID)
      = Except.ok (if testIsValid BODY_VALID then matchIdentifier (claimedOf goodPs) else none)
      ∧ (testIsValid BODY_VALID = true ↔ RegexOccurs BODY_VALID.data) :=
  C2_amended_regex_anywhere goodPs REALM0 RT0 BODY_VALID (by decide)

/-- C3 counterexample: with the key `a` carried twice (values `1` then `2`),
the pair `(a, 1)` is inbound but absent from the re-verification body; only
the last value survives. -/
theorem C3_duplicate_key_counterexample :
    structuralOk dupPs RT0 = true
      ∧ (KA, V1) ∈ dupPs
      ∧ ((KA, V1) ∉ buildVerifyParams dupPs)
      ∧ (KA, V2) ∈ buildVerifyParams dupPs :=
  ⟨by decide, by decide, by decide, by decide⟩

/-- C3 amended: the re-verification body maps every key other than
`openid.mode` to the value of its last inbound occurrence (duplicate keys
collapse, earlier values are dropped), and maps `openid.mode` to
`check_authentication`. -/
theorem C3_amended_last_value_wins (ps : Params) (k : String) (h : k ≠ KEY_mode) :
    getParam (buildVerifyParams ps) k = getParam ps.reverse k
      ∧ getParam (buildVerifyParams ps) KEY_mode = some CHECK_AUTH :=
  ⟨buildVerifyParams_getParam ps k h, buildVerifyParams_mode ps⟩

/-- C3 amended witness at the duplicated fixture key. -/
theorem C3_amended_last_value_wins_witness :
    getParam (buildVerifyParams dupPs) KA = getParam dupPs.reverse KA
      ∧ getParam (buildVerifyParams dupPs) KEY_mode = some CHECK_AUTH :=
  C3_amended_last_value_wins dupPs KA (by decide)

/-- C4 counterexample: a non-success re-verification status on structurally
valid parameters and a structural rejection produce the very same
`Unauthenticated` error value — there is no distinguishable
`UpstreamTransportError` kind. -/
theorem C4_indistinguishable_counterexample :
    conform goodPs REALM0 RT0 (fun _ => FetchResult.response false EMPTY_STR)
      = Except.error UNAUTH_MSG
      ∧ conform badPs REALM0 RT0 (fun _ => FetchResult.response true BODY_VALID)
        = Except.error UNAUTH_MSG :=
  ⟨rfl, rfl⟩

/-- C4 amended: a non-success transport status always yields the same
`Unauthenticated` failure as an assertion rejection, with no identifier
extracted, while a rejected fetch propagates the exception of the transport itself
unchanged. -/
theorem C4_amended_transport_failure (ps : Params) (realm returnTo text : String) :
    conform ps realm returnTo (fun _ => FetchResult.response false text)
      = Except.error UNAUTH_MSG
      ∧ (∀ msg, structuralOk ps returnTo = true →
          verifyAssertion ps realm returnTo (fun _ => FetchResult.reject msg)
            = Except.error msg) := by
  constructor
  · unfold conform
    by_cases h : structuralOk ps returnTo
    · rw [verifyAssertion_structural_true ps realm returnTo h]
      rfl
    · rw [verifyAssertion_structural_false ps realm returnTo (by simpa using h)]
  · intro msg h
    rw [verifyAssertion_structural_true ps realm returnTo h]
    rfl

/-- C4 amended witness at the fixture parameters. -/
theorem C4_amended_transport_failure_witness :
    conform goodPs REALM0 RT0 (fun _ => FetchResult.response false EMPTY_STR)
      = Except.error UNAUTH_MSG
      ∧ verifyAssertion goodPs REALM0 RT0 (fun _ => FetchResult.reject NET_MSG)
        = Except.error NET_MSG :=
  ⟨(C4_amended_transport_failure goodPs REALM0 RT0 EMPTY_STR).1,
    (C4_amended_transport_failure goodPs REALM0 RT0 EMPTY_STR).2 NET_MSG (by decide)⟩

/-- C5: for parameter sets passing the structural checks whose
re-verification the provider confirmed valid, verification yields exactly the
digit string captured by the fixed identity-URL pattern from the claimed
identifier, and yields null when the claimed identifier matches the pattern
for no digit string — even though the provider confirmed validity. -/
theorem C5_identifier_extraction (ps : Params) (realm returnTo body d : String)
    (h1 : structuralOk ps returnTo = true) (h2 : testIsValid body = true) :
    (identSpecMatch (claimedOf ps) d →
        verifyAssertion ps realm returnTo (fun _ => FetchResult.response true body)
          = Except.ok (some d))
      ∧ ((∀ e, ¬ identSpecMatch (claimedOf ps) e) →
        verifyAssertion ps realm returnTo (fun _ => FetchResult.response true body)
          = Except.ok none) := by
  constructor
  · intro hm
    rw [verifyAssertion_structural_true ps realm returnTo h1, afterChecks_response_true,
      if_pos h2, (matchIdentifier_eq_some_iff _ _).mpr hm]
  · intro hnone
    rw [verifyAssertion_structural_true ps realm returnTo h1, afterChecks_response_true,
      if_pos h2, matchIdentifier_eq_none _ hnone]

/-- C5 witness: the example claimed identifier of the specification yields exactly
its digit string. -/
theorem C5_identifier_extraction_witness :
    verifyAssertion goodPs REALM0 RT0 (fun _ => FetchResult.response true BODY_VALID)
      = Except.ok (some STEAMID0) :=
  (C5_identifier_extraction goodPs REALM0 RT0 BODY_VALID STEAMID0
      (by decide) (by decide)).1
    ⟨Or.inl (by decide), by decide, by decide⟩

/-- C6 counterexample: with verified identifier `76561197960287930`, a raw
record whose `steamid` field is `999` maps to a profile whose `id` and
synthesized email are built from `999`, not from the verified identifier —
the mapping reads the own `steamid` field of the record, not the verified value. -/
theorem C6_profile_id_counterexample :
    verifyAssertion goodPs REALM0 RT0 (fun _ => FetchResult.response true BODY_VALID)
      = Except.ok (some STEAMID0)
      ∧ (profileMap wrongProfile).id ≠ STEAMID0
      ∧ (profileMap wrongProfile).email ≠ STEAMID0 ++ "@" ++ EMAIL_DOMAIN :=
  ⟨rfl, by decide, by decide⟩

/-- C6 amended: the profile mapping sets `id` to the `steamid`
field of the raw record and `email` to that same field followed by the fixed domain, regardless
of every other field; these equal the externally verified identifier exactly
when the record returned by the lookup carries it in `steamid`. -/
theorem C6_amended_profile_uses_record_steamid (p q : SteamProfile)
    (h : p.steamid = q.steamid) :
    (profileMap p).id = p.steamid
      ∧ (profileMap p).email = p.steamid ++ "@" ++ EMAIL_DOMAIN
      ∧ (profileMap p).id = (profileMap q).id
      ∧ (profileMap p).email = (profileMap q).email := by
  refine ⟨rfl, rfl, ?_, ?_⟩ <;> simp [profileMap, h]

/-- C6 amended witness: two records sharing a `steamid` but differing in all
other fields map to the same identifier and email. -/
theorem C6_amended_profile_uses_record_steamid_witness :
    (profileMap prof1).id = prof1.steamid
      ∧ (profileMap prof1).email = prof1.steamid ++ "@" ++ EMAIL_DOMAIN
      ∧ (profileMap prof1).id = (profileMap prof1b).id
      ∧ (profileMap prof1).email = (profileMap prof1b).email :=
  C6_amended_profile_uses_record_steamid prof1 prof1b (by decide)

/-- C7 counterexample: an envelope with two records is not rejected — the
resolver happily maps the first record, so "exactly one record" is not
required. -/
theorem C7_two_records_counterexample :
    [prof1, prof2].length = 2
      ∧ resolveProfile (LookupResp.ok (some [prof1, prof2])) = Except.ok (profileMap prof1) :=
  ⟨rfl, rfl⟩

/-- C7 amended: the resolver requires at least one record: an empty record
list or a malformed envelope is the `profile not found` failure, and any
non-empty list yields the profile mapped from its first record. -/
theorem C7_amended_at_least_one_record (p : SteamProfile) (rest : List SteamProfile) :
    resolveProfile (LookupResp.ok (some (p :: rest))) = Except.ok (profileMap p)
      ∧ resolveProfile (LookupResp.ok (some [])) = Except.error PROFILE_NOT_FOUND
      ∧ resolveProfile (LookupResp.ok none) = Except.error PROFILE_NOT_FOUND :=
  ⟨rfl, rfl, rfl⟩

/-- C8: construction fails with the configuration error when the API secret
is missing or empty — before anything else, and the factory is a pure
function with no transport, so zero network calls occur — and succeeds for
every options value with a non-empty secret and a parsable absolute callback
URL. -/
theorem C8_construction_guard (opts : SteamProviderOptions) :
    (opts.clientSecret.length = 0 → SteamProvider opts = Except.error API_KEY_ERROR)
      ∧ (∀ u : JsURL, 1 ≤ opts.clientSecret.length → parseURL opts.callbackUrl = some u →
          ∃ cfg : ProviderConfig, SteamProvider opts = Except.ok cfg) := by
  constructor
  · intro h
    unfold SteamProvider
    rw [if_pos (by omega)]
  · intro u h1 h2
    unfold SteamProvider
    rw [if_neg (by omega)]
    simp only [h2]
    exact ⟨_, rfl⟩

/-- C8 witness: the empty secret fails, the well-formed options succeed. -/
theorem C8_construction_guard_witness :
    SteamProvider OPTS_EMPTY = Except.error API_KEY_ERROR
      ∧ ∃ cfg : ProviderConfig, SteamProvider OPTS_OK = Except.ok cfg :=
  ⟨(C8_construction_guard OPTS_EMPTY).1 (by decide),
    (C8_construction_guard OPTS_OK).2 U0 (by decide) (by decide)⟩

/-- C9 counterexample: the valid absolute callback URLs with an uppercase
host letter or an explicit default port are normalized by the platform URL
constructor (host lowercased, default port elided), so the derived return-to
URL does not begin with the given callback URL string, refuting the claim;
it still ends with the fixed provider suffix. -/
theorem C9_normalization_counterexample :
    returnToOf (SteamProvider OPTS_UPPERHOST) = some RT_NORM
      ∧ jsStartsWith RT_NORM OPTS_UPPERHOST.callbackUrl = false
      ∧ returnToOf (SteamProvider OPTS_PORT443) = some RT_NORM
      ∧ jsStartsWith RT_NORM OPTS_PORT443.callbackUrl = false
      ∧ strEnds RT_NORM ("/steam") = true :=
  ⟨rfl, by decide, rfl, by decide, by decide⟩

/-- C9 amended: for every configuration whose callback URL parses, the
derived return-to URL begins with the normalized serialization (`href`) of
the callback URL — hence with the given string exactly when the input is
already canonical — and ends with the fixed provider suffix, and the derived
realm equals the origin of the callback URL. -/
theorem C9_amended_derived_urls (opts : SteamProviderOptions) (u : JsURL)
    (h1 : 1 ≤ opts.clientSecret.length) (h2 : parseURL opts.callbackUrl = some u) :
    ∃ cfg : ProviderConfig, SteamProvider opts = Except.ok cfg
      ∧ cfg.realm = u.origin
      ∧ jsStartsWith cfg.returnTo u.href = true
      ∧ (u.href = opts.callbackUrl → jsStartsWith cfg.returnTo opts.callbackUrl = true)
      ∧ strEnds cfg.returnTo ("/steam") = true := by
  refine ⟨⟨PROVIDER_ID, opts.clientSecret, u.origin, u.href ++ "/" ++ PROVIDER_ID,
      [(KEY_mode, CHECKID_SETUP), (KEY_ns, OPENID_CHECK_ns),
        (KEY_identity, IDENTIFIER_SELECT), (KEY_claimed_id, IDENTIFIER_SELECT),
        (KEY_return_to, u.href ++ "/" ++ PROVIDER_ID), (KEY_realm, u.origin)]⟩,
    ?_, rfl, jsStartsWith_append2 _ _ _, ?_, strEnds_append2 _ _ _ _ (by decide)⟩
  · unfold SteamProvider
    rw [if_neg (by omega)]
    simp only [h2]
  · intro hc
    rw [← hc]
    exact jsStartsWith_append2 _ _ _

/-- C9 amended witness at the canonical fixture configuration, where the
normalized serialization is the input itself. -/
theorem C9_amended_derived_urls_witness :
    ∃ cfg : ProviderConfig, SteamProvider OPTS_OK = Except.ok cfg
      ∧ cfg.realm = U0.origin
      ∧ jsStartsWith cfg.returnTo U0.href = true
      ∧ (U0.href = OPTS_OK.callbackUrl → jsStartsWith cfg.returnTo OPTS_OK.callbackUrl = true)
      ∧ strEnds cfg.returnTo ("/steam") = true :=
  C9_amended_derived_urls OPTS_OK U0 (by decide) (by decide)

/-- C10: assertion verification never consults the realm argument or the
`openid.realm` parameter: two parameter sets that agree after removing every
`openid.realm` pair, under any two realm arguments and the same stubbed
transport response, produce the same structural decision and the same
verification outcome. -/
theorem C10_realm_not_consulted (ps₁ ps₂ : Params) (realm₁ realm₂ returnTo : String)
    (resp : FetchResult) (h : dropRealm ps₁ = dropRealm ps₂) :
    structuralOk ps₁ returnTo = structuralOk ps₂ returnTo
      ∧ verifyAssertion ps₁ realm₁ returnTo (fun _ => resp)
        = verifyAssertion ps₂ realm₂ returnTo (fun _ => resp) := by
  have hk : ∀ k : String, k ≠ KEY_realm → getParam ps₁ k = getParam ps₂ k := by
    intro k hkne
    rw [← getParam_filter_ne ps₁ KEY_realm k hkne, ← getParam_filter_ne ps₂ KEY_realm k hkne]
    show getParam (dropRealm ps₁) k = getParam (dropRealm ps₂) k
    rw [h]
  have e1 := hk KEY_op_endpoint (by decide)
  have e2 := hk KEY_ns (by decide)
  have e3 := hk KEY_claimed_id (by decide)
  have e4 := hk KEY_identity (by decide)
  have e5 := hk KEY_return_to (by decide)
  have hso : structuralOk ps₁ returnTo = structuralOk ps₂ returnTo := by
    unfold structuralOk claimedOf identityOf
    rw [e1, e2, e3, e4, e5]
  refine ⟨hso, ?_⟩
  simp only [verifyAssertion, claimedOf, hso, e3]

/-- C10 witness: changing the `openid.realm` value (with a different realm
argument) leaves both the structural decision and the outcome unchanged. -/
theorem C10_realm_not_consulted_witness :
    structuralOk goodPs RT0 = structuralOk goodPsAltRealm RT0
      ∧ verifyAssertion goodPs REALM0 RT0 (fun _ => FetchResult.response true BODY_VALID)
        = verifyAssertion goodPsAltRealm REALM1 RT0 (fun _ => FetchResult.response true BODY_VALID) :=
  C10_realm_not_consulted goodPs goodPsAltRealm REALM0 REALM1 RT0
    (FetchResult.response true BODY_VALID) (by decide)
